import Mathlib

/-!
Shallow embedding of the single-file multi-agent travel planner
(`simple_travel_planner.py`): request model, the four agent stages
(planner, search, budget, summarizer), the process-wide metrics counters
and the orchestration endpoint `create_plan`.

Python integers are modelled as `Int`, the float `rating` as `ℚ`
(`round(x, 1)` becomes rounding to the nearest tenth), and the random
draws made by `random.randint` / `random.random` are passed in explicitly
as a `SearchRandomness` record so the stages become pure functions.
The mutable global `METRICS` dictionary is threaded through as explicit
state.
-/

/-- Mirrors the pydantic model `PlanRequest(BaseModel)`: four fields,
no validators and no coercion beyond basic typing. -/
structure PlanRequest where
  from_city : String
  to_city : String
  budget : Int
  days : Int
deriving Repr, DecidableEq

/-- The dict returned inside `planner_agent`s `{"tasks": ...}` payload. -/
structure TaskSet where
  flight_query : String
  hotel_query : String
  places_query : String
deriving Repr, DecidableEq

/-- One flight dict produced by `search_agent`. -/
structure FlightOption where
  airline : String
  price : Int
  depart : String
  arrive : String
deriving Repr, DecidableEq

/-- One hotel dict produced by `search_agent`; `rating` is the Python
float `round(3 + random.random(), 1)`, modelled in `ℚ`. -/
structure HotelOption where
  name : String
  price_per_night : Int
  rating : ℚ
deriving Repr, DecidableEq

/-- The dict returned by `search_agent`. -/
structure SearchResult where
  flights : List FlightOption
  hotels : List HotelOption
  places : List String
deriving Repr, DecidableEq

/-- The `"breakdown"` sub-dict of `budget_agent`s result. -/
structure Breakdown where
  flight : Int
  hotel_per_night : Int
  food : Int
  transport : Int
deriving Repr, DecidableEq

/-- The dict returned by `budget_agent`; `status` is one of the strings
`"within_budget"` / `"over_budget"` exactly as in the source. -/
structure BudgetResult where
  total : Int
  status : String
  breakdown : Breakdown
deriving Repr, DecidableEq

/-- The summary dict returned by `summarizer_agent` (its JSON keys
`"from"`/`"to"` are the request cities; `plan_id` is the fresh UUID,
passed in here as an explicit argument). -/
structure PlanSummary where
  plan_id : String
  from_city : String
  to_city : String
  flights : List FlightOption
  hotels : List HotelOption
  itinerary : List String
  budget : BudgetResult
deriving Repr, DecidableEq

/-- The global `METRICS = {"plans_created": 0, "agent_calls": 0}`. -/
structure MetricsRegistry where
  plans_created : Nat
  agent_calls : Nat
deriving Repr, DecidableEq

/-- The random draws consumed by one `search_agent` call, in source
order: two `random.randint` flight prices, then for each hotel a
`random.randint` price and a `random.random()` sample in `[0,1)`. -/
structure SearchRandomness where
  flight1_price : Int
  flight2_price : Int
  hotel1_price : Int
  hotel1_u : ℚ
  hotel2_price : Int
  hotel2_u : ℚ
deriving Repr, DecidableEq

/-- Python `min(gen, default=0)`: 0 on the empty list, otherwise the
least element. -/
def minWithDefault : List Int → Int
  | [] => 0
  | x :: rest => rest.foldl min x

/-- Python `round(x, 1)` on our `ℚ` model of floats: round to the
nearest tenth. -/
def roundTo1 (q : ℚ) : ℚ := (round (10 * q) : ℤ) / 10

/-- The `tasks` dict built by `planner_agent` (its pure output, separate
from the metrics increment handled below). -/
def planner_agent (req : PlanRequest) : TaskSet :=
  { flight_query := "cheap flights from " ++ req.from_city ++ " to " ++ req.to_city
    hotel_query := "budget hotels in " ++ req.to_city
    places_query := "top attractions in " ++ req.to_city }

/-- The result dict built by `search_agent`, with the random draws made
explicit: two flights, two hotels, and
`places = [f"{tasks['places_query']} - {i+1}" for i in range(5)]`. -/
def search_agent (tasks : TaskSet) (r : SearchRandomness) : SearchResult :=
  { flights := [
      { airline := "AirFast", price := r.flight1_price, depart := "06:00", arrive := "09:00" },
      { airline := "SkyGo", price := r.flight2_price, depart := "12:00", arrive := "15:00" } ]
    hotels := [
      { name := "Budget Inn", price_per_night := r.hotel1_price,
        rating := roundTo1 (3 + r.hotel1_u) },
      { name := "Comfort Stay", price_per_night := r.hotel2_price,
        rating := roundTo1 (3 + r.hotel2_u) } ]
    places := (List.range 5).map (fun i => tasks.places_query ++ " - " ++ toString (i + 1)) }

/-- The result dict built by `budget_agent`: clamp days to at least 1,
take cheapest flight/hotel with `default=0`, add fixed per-day food and
transport costs, and compare the total against the request budget. -/
def budget_agent (search_result : SearchResult) (req : PlanRequest) : BudgetResult :=
  let days := max 1 req.days
  let cheapest_flight := minWithDefault (search_result.flights.map (fun f => f.price))
  let cheapest_hotel := minWithDefault (search_result.hotels.map (fun h => h.price_per_night))
  let food := 400 * days
  let transport := 250 * days
  let total := cheapest_flight + cheapest_hotel * days + food + transport
  let status := if total ≤ req.budget then "within_budget" else "over_budget"
  { total := total, status := status
    breakdown := { flight := cheapest_flight, hotel_per_night := cheapest_hotel,
                   food := food, transport := transport } }

/-- One itinerary line of `summarizer_agent`:
`f"Day {d+1}: {places[d % len(places)] if places else 'Local exploration'}"`. -/
def dayEntry (places : List String) (d : Nat) : String :=
  "Day " ++ toString (d + 1) ++ ": " ++
    (if places = [] then "Local exploration" else places.getD (d % places.length) "")

/-- The summary dict built by `summarizer_agent`; `for d in range(req.days)`
is empty when `req.days ≤ 0`, which `Int.toNat` captures. -/
def summarizer_agent (req : PlanRequest) (search_result : SearchResult)
    (budget_result : BudgetResult) (plan_id : String) : PlanSummary :=
  { plan_id := plan_id
    from_city := req.from_city
    to_city := req.to_city
    flights := search_result.flights
    hotels := search_result.hotels
    itinerary := (List.range req.days.toNat).map (fun d => dayEntry search_result.places d)
    budget := budget_result }

/-- The `METRICS["agent_calls"] += 1` line at the top of every agent. -/
def bumpAgentCalls (m : MetricsRegistry) : MetricsRegistry :=
  { m with agent_calls := m.agent_calls + 1 }

/-- Stateful `planner_agent`: increments `agent_calls`, returns the tasks. -/
def planner_agent_run (m : MetricsRegistry) (req : PlanRequest) :
    MetricsRegistry × TaskSet :=
  (bumpAgentCalls m, planner_agent req)

/-- Stateful `search_agent`: increments `agent_calls`, returns the results. -/
def search_agent_run (m : MetricsRegistry) (tasks : TaskSet) (r : SearchRandomness) :
    MetricsRegistry × SearchResult :=
  (bumpAgentCalls m, search_agent tasks r)

/-- Stateful `budget_agent`: increments `agent_calls`, returns the budget. -/
def budget_agent_run (m : MetricsRegistry) (search_result : SearchResult)
    (req : PlanRequest) : MetricsRegistry × BudgetResult :=
  (bumpAgentCalls m, budget_agent search_result req)

/-- Stateful `summarizer_agent`: increments `agent_calls`, returns the summary. -/
def summarizer_agent_run (m : MetricsRegistry) (req : PlanRequest)
    (search_result : SearchResult) (budget_result : BudgetResult)
    (plan_id : String) : MetricsRegistry × PlanSummary :=
  (bumpAgentCalls m, summarizer_agent req search_result budget_result plan_id)

/-- The response envelope assembled by the `/plan` endpoint. -/
structure Response where
  summary : PlanSummary
  raw_planner : TaskSet
  raw_search : SearchResult
  raw_budget : BudgetResult
  metrics : MetricsRegistry
  generated_at : String
deriving Repr, DecidableEq

/-- The `/plan` endpoint `create_plan`: bump `plans_created`, run the four
stages in order threading outputs forward, assemble the response with a
final metrics snapshot. The fresh UUID and the timestamp are explicit
arguments. Returns the final metrics state alongside the response. -/
def create_plan (m : MetricsRegistry) (req : PlanRequest) (r : SearchRandomness)
    (plan_id : String) (generated_at : String) : MetricsRegistry × Response :=
  let m0 := { m with plans_created := m.plans_created + 1 }
  let pr := planner_agent_run m0 req
  let sr := search_agent_run pr.1 pr.2 r
  let br := budget_agent_run sr.1 sr.2 req
  let su := summarizer_agent_run br.1 req sr.2 br.2 plan_id
  (su.1,
   { summary := su.2
     raw_planner := pr.2
     raw_search := sr.2
     raw_budget := br.2
     metrics := su.1
     generated_at := generated_at })

/-! Helper lemmas about `minWithDefault` (the embedding of Python
`min(..., default=0)`). -/

/-- Folding `min` never exceeds the starting accumulator. -/
theorem foldl_min_le_init (l : List Int) (a : Int) : l.foldl min a ≤ a := by
  induction l generalizing a with
  | nil => exact le_refl a
  | cons x xs ih =>
    calc xs.foldl min (min a x) ≤ min a x := ih (min a x)
    _ ≤ a := min_le_left a x

/-- The result of folding `min` is the accumulator or a list element. -/
theorem foldl_min_mem (l : List Int) (a : Int) : l.foldl min a = a ∨ l.foldl min a ∈ l := by
  induction l generalizing a with
  | nil => exact Or.inl rfl
  | cons x xs ih =>
    rcases ih (min a x) with h | h
    · rcases min_cases a x with ⟨hm, _⟩ | ⟨hm, _⟩
      · exact Or.inl (by rw [List.foldl_cons, h, hm])
      · exact Or.inr (by rw [List.foldl_cons, h, hm]; exact List.mem_cons_self x xs)
    · exact Or.inr (List.mem_cons_of_mem x h)

/-- Folding `min` is a lower bound for every list element. -/
theorem foldl_min_le_mem (l : List Int) (a x : Int) (hx : x ∈ l) : l.foldl min a ≤ x := by
  induction l generalizing a with
  | nil => cases hx
  | cons y ys ih =>
    rcases List.mem_cons.mp hx with h | h
    · subst h
      calc ys.foldl min (min a x) ≤ min a x := foldl_min_le_init ys (min a x)
      _ ≤ x := min_le_right a x
    · exact ih (min a y) h

/-- On a non-empty list, `minWithDefault` returns a member of the list. -/
theorem minWithDefault_mem (l : List Int) (h : l ≠ []) : minWithDefault l ∈ l := by
  cases l with
  | nil => exact absurd rfl h
  | cons x xs =>
    rcases foldl_min_mem xs x with h1 | h1
    · rw [minWithDefault, h1]; exact List.mem_cons_self x xs
    · rw [minWithDefault]; exact List.mem_cons_of_mem x h1

/-- The value of `minWithDefault` is a lower bound for every list element. -/
theorem minWithDefault_le (l : List Int) (x : Int) (hx : x ∈ l) : minWithDefault l ≤ x := by
  cases l with
  | nil => cases hx
  | cons y ys =>
    rcases List.mem_cons.mp hx with h | h
    · subst h; exact foldl_min_le_init ys x
    · exact foldl_min_le_mem ys y x h

/-- Sample inputs used by the concrete witnesses below (the scenario of
the spec: Delhi to Goa, budget 20000, 3 days, flight prices 4000/5000,
hotel prices 1000/1500). -/
def sampleReq : PlanRequest :=
  { from_city := "Delhi", to_city := "Goa", budget := 20000, days := 3 }

/-- Fixed random draws realizing the spec scenario. -/
def sampleRand : SearchRandomness :=
  { flight1_price := 4000, flight2_price := 5000,
    hotel1_price := 1000, hotel1_u := 1/2,
    hotel2_price := 1500, hotel2_u := 1/4 }

/-- The search result produced for the sample scenario. -/
def sampleSearch : SearchResult := search_agent (planner_agent sampleReq) sampleRand

/-- C1: for every request and every search result with non-empty flights
and hotels, `budget_agent` returns the breakdown of the spec: cheapest
flight price, cheapest hotel price-per-night, `400 * days` food,
`250 * days` transport with `days = max 1 req.days`, the stated total,
and status `"within_budget"` exactly when the total is within budget. -/
theorem budget_agent_spec (search_result : SearchResult) (req : PlanRequest)
    (b : BudgetResult) (hb : b = budget_agent search_result req)
    (d : Int) (hd : d = max 1 req.days)
    (hf : search_result.flights ≠ []) (hh : search_result.hotels ≠ []) :
    (b.breakdown.flight ∈ search_result.flights.map (fun f => f.price) ∧
      ∀ p ∈ search_result.flights.map (fun f => f.price), b.breakdown.flight ≤ p) ∧
    (b.breakdown.hotel_per_night ∈ search_result.hotels.map (fun h => h.price_per_night) ∧
      ∀ p ∈ search_result.hotels.map (fun h => h.price_per_night),
        b.breakdown.hotel_per_night ≤ p) ∧
    b.breakdown.food = 400 * d ∧
    b.breakdown.transport = 250 * d ∧
    b.total = b.breakdown.flight + b.breakdown.hotel_per_night * d +
      b.breakdown.food + b.breakdown.transport ∧
    (b.status = "within_budget" ↔ b.total ≤ req.budget) := by
  subst hb hd
  have hfm : search_result.flights.map (fun f => f.price) ≠ [] := by
    simpa using hf
  have hhm : search_result.hotels.map (fun h => h.price_per_night) ≠ [] := by
    simpa using hh
  refine ⟨⟨?_, ?_⟩, ⟨?_, ?_⟩, ?_, ?_, ?_, ?_⟩
  · exact minWithDefault_mem _ hfm
  · intro p hp; exact minWithDefault_le _ p hp
  · exact minWithDefault_mem _ hhm
  · intro p hp; exact minWithDefault_le _ p hp
  · rfl
  · rfl
  · rfl
  · show (if _ ≤ _ then "within_budget" else "over_budget") = "within_budget" ↔ _
    split
    · simpa
    · rename_i hgt
      constructor
      · intro hcontra; exact absurd hcontra (by decide)
      · intro hle; exact absurd hle hgt

/-- Witness for C1: the theorem applied to the sample scenario. -/
theorem budget_agent_spec_witness :
    sampleSearch.flights ≠ [] ∧ sampleSearch.hotels ≠ [] ∧
    (budget_agent sampleSearch sampleReq).breakdown.food = 400 * max 1 sampleReq.days ∧
    ((budget_agent sampleSearch sampleReq).status = "within_budget" ↔
      (budget_agent sampleSearch sampleReq).total ≤ sampleReq.budget) := by
  have h := budget_agent_spec sampleSearch sampleReq _ rfl _ rfl
    (by decide) (by decide)
  exact ⟨by decide, by decide, h.2.2.1, h.2.2.2.2.2⟩

/-- Counterexample for C3: in the sample scenario (3 days, cheapest hotel
1000 per night) the total is 8950 while the literal sum of the four
breakdown components is only 6950, because the code multiplies the hotel
component by the number of days. -/
theorem budget_total_not_literal_sum :
    ¬ ((budget_agent sampleSearch sampleReq).total =
        (budget_agent sampleSearch sampleReq).breakdown.flight +
        (budget_agent sampleSearch sampleReq).breakdown.hotel_per_night +
        (budget_agent sampleSearch sampleReq).breakdown.food +
        (budget_agent sampleSearch sampleReq).breakdown.transport) := by
  decide

/-- C3 amended: the total equals flight plus hotel-per-night times
`max 1 days` plus food plus transport; the literal four-way sum only
holds when `max 1 days = 1`. -/
theorem budget_total_formula (search_result : SearchResult) (req : PlanRequest) :
    (budget_agent search_result req).total =
      (budget_agent search_result req).breakdown.flight +
      (budget_agent search_result req).breakdown.hotel_per_night * max 1 req.days +
      (budget_agent search_result req).breakdown.food +
      (budget_agent search_result req).breakdown.transport := by
  rfl

/-- Empty search result used in the degenerate-input witnesses. -/
def emptySearch : SearchResult := { flights := [], hotels := [], places := [] }

/-- One-day request used in the degenerate-input witnesses. -/
def oneDayReq : PlanRequest := { from_city := "A", to_city := "B", budget := 0, days := 1 }

/-- C7: `budget_agent` tolerates empty flight or hotel lists — the
corresponding cheapest-price component falls back to 0 — and with
`days = 1` and both lists empty the total is exactly `400 + 250 = 650`. -/
theorem budget_agent_empty_fallback (sr : SearchResult) (req : PlanRequest) :
    (sr.flights = [] → (budget_agent sr req).breakdown.flight = 0) ∧
    (sr.hotels = [] → (budget_agent sr req).breakdown.hotel_per_night = 0) ∧
    (req.days = 1 → sr.flights = [] → sr.hotels = [] →
      (budget_agent sr req).breakdown.flight = 0 ∧
      (budget_agent sr req).breakdown.hotel_per_night = 0 ∧
      (budget_agent sr req).total = 650) := by
  refine ⟨?_, ?_, ?_⟩
  · intro hf
    show minWithDefault (sr.flights.map (fun f => f.price)) = 0
    rw [hf]; rfl
  · intro hh
    show minWithDefault (sr.hotels.map (fun h => h.price_per_night)) = 0
    rw [hh]; rfl
  · intro hd hf hh
    refine ⟨?_, ?_, ?_⟩
    · show minWithDefault (sr.flights.map (fun f => f.price)) = 0
      rw [hf]; rfl
    · show minWithDefault (sr.hotels.map (fun h => h.price_per_night)) = 0
      rw [hh]; rfl
    · show minWithDefault (sr.flights.map (fun f => f.price)) +
        minWithDefault (sr.hotels.map (fun h => h.price_per_night)) * max 1 req.days +
        400 * max 1 req.days + 250 * max 1 req.days = 650
      rw [hf, hh, hd]
      rfl

/-- Witness for C7: the theorem applied to the empty search result and a
one-day request. -/
theorem budget_agent_empty_fallback_witness :
    (budget_agent emptySearch oneDayReq).breakdown.flight = 0 ∧
    (budget_agent emptySearch oneDayReq).breakdown.hotel_per_night = 0 ∧
    (budget_agent emptySearch oneDayReq).total = 650 := by
  exact (budget_agent_empty_fallback emptySearch oneDayReq).2.2 rfl rfl rfl

/-- Indexing helper: element `d` of `(List.range n).map f` is `f d`. -/
theorem getD_range_map (n d : Nat) (f : Nat → String) (h : d < n) :
    ((List.range n).map f).getD d "" = f d := by
  rw [List.getD_eq_getElem _ _ (by simpa using h)]
  simp

/-- C2: for a request with `days = n ≥ 1`, the summarizer itinerary has
exactly `n` entries, entry `d` (0-indexed) being
`"Day {d+1}: {places[d % len(places)]}"` when `places` is non-empty and
`"Day {d+1}: Local exploration"` when it is empty. -/
theorem summarizer_itinerary_spec (req : PlanRequest) (search_result : SearchResult)
    (budget_result : BudgetResult) (plan_id : String) (n : Nat)
    (hn : 1 ≤ n) (hdays : req.days = (n : Int)) (s : PlanSummary)
    (hs : s = summarizer_agent req search_result budget_result plan_id) :
    s.itinerary.length = n ∧
    ∀ d, d < n →
      s.itinerary.getD d "" =
        (if search_result.places = [] then
          "Day " ++ toString (d + 1) ++ ": Local exploration"
         else
          "Day " ++ toString (d + 1) ++ ": " ++
            search_result.places.getD (d % search_result.places.length) "") := by
  subst hs
  have hlen : (summarizer_agent req search_result budget_result plan_id).itinerary.length
      = req.days.toNat := by
    simp [summarizer_agent]
  have htn : req.days.toNat = n := by rw [hdays]; exact Int.toNat_natCast n
  constructor
  · rw [hlen, htn]
  · intro d hd
    show ((List.range req.days.toNat).map
      (fun d => dayEntry search_result.places d)).getD d "" = _
    rw [getD_range_map _ _ _ (by rw [htn]; exact hd)]
    rw [dayEntry]
    split
    · rw [String.append_assoc]
      congr 1
    · rfl

/-- Witness for C2: the theorem applied to the sample scenario (3 days,
non-empty places), checking the length and the first entry. -/
theorem summarizer_itinerary_spec_witness :
    (summarizer_agent sampleReq sampleSearch (budget_agent sampleSearch sampleReq)
      "pid").itinerary.length = 3 ∧
    (summarizer_agent sampleReq sampleSearch (budget_agent sampleSearch sampleReq)
      "pid").itinerary.getD 0 "" =
      (if sampleSearch.places = [] then "Day " ++ toString (0 + 1) ++ ": Local exploration"
       else "Day " ++ toString (0 + 1) ++ ": " ++
         sampleSearch.places.getD (0 % sampleSearch.places.length) "") := by
  have h := summarizer_itinerary_spec sampleReq sampleSearch
    (budget_agent sampleSearch sampleReq) "pid" 3 (by decide) (by decide) _ rfl
  exact ⟨h.1, h.2 0 (by decide)⟩

/-- Request with `days = 0`, constructible because the pydantic model
performs no minimum-1 coercion. -/
def zeroDaysReq : PlanRequest :=
  { from_city := "Delhi", to_city := "Goa", budget := 20000, days := 0 }

/-- Fresh metrics state, as at process start. -/
def initialMetrics : MetricsRegistry := { plans_created := 0, agent_calls := 0 }

/-- Counterexample for C4: a PlanRequest with `days = 0` is constructed
with its `days` field unchanged (`0 < 1`, no coercion to a minimum of 1),
and the pipeline hands it to the summarizer stage as-is, which therefore
produces a 0-length itinerary instead of the length ≥ 1 a coerced
request would give. -/
theorem planrequest_days_not_coerced :
    zeroDaysReq.days < 1 ∧
    (create_plan initialMetrics zeroDaysReq sampleRand "pid"
      "2026-01-01 00:00:00").2.summary.itinerary.length = 0 := by
  constructor
  · decide
  · rfl

/-- C4 amended: the PlanRequest constructor stores `days` unchanged, so
stages can receive `days < 1`; the summarizer uses the raw value
(producing `toNat days` itinerary entries), and only `budget_agent`
clamps internally via `max 1 days`. -/
theorem planrequest_days_uncoerced_spec (o t : String) (b d : Int)
    (sr : SearchResult) (br : BudgetResult) (pid : String) :
    (PlanRequest.mk o t b d).days = d ∧
    (summarizer_agent (PlanRequest.mk o t b d) sr br pid).itinerary.length = d.toNat ∧
    (budget_agent sr (PlanRequest.mk o t b d)).breakdown.food = 400 * max 1 d ∧
    1 ≤ max 1 d := by
  refine ⟨rfl, ?_, rfl, le_max_left 1 d⟩
  simp [summarizer_agent]

/-- C10: for a request with `days ≤ 0` the pipeline still completes,
returning an empty itinerary while the budget is priced as if the trip
lasted one day: food 400, transport 250, and one night of the cheapest
hotel, so the total is flight + hotel + 650. -/
theorem nonpositive_days_pipeline (m : MetricsRegistry) (req : PlanRequest)
    (r : SearchRandomness) (pid ts : String) (hd : req.days ≤ 0) :
    (create_plan m req r pid ts).2.summary.itinerary = [] ∧
    (create_plan m req r pid ts).2.raw_budget.breakdown.food = 400 ∧
    (create_plan m req r pid ts).2.raw_budget.breakdown.transport = 250 ∧
    (create_plan m req r pid ts).2.raw_budget.total =
      (create_plan m req r pid ts).2.raw_budget.breakdown.flight +
      (create_plan m req r pid ts).2.raw_budget.breakdown.hotel_per_night + 650 := by
  have h1 : max 1 req.days = 1 := by omega
  have h0 : req.days.toNat = 0 := by omega
  refine ⟨?_, ?_, ?_, ?_⟩
  · show (List.range req.days.toNat).map _ = []
    rw [h0]; rfl
  · show 400 * max 1 req.days = 400
    rw [h1, mul_one]
  · show 250 * max 1 req.days = 250
    rw [h1, mul_one]
  · have key : ∀ cf ch : Int,
        cf + ch * max 1 req.days + 400 * max 1 req.days + 250 * max 1 req.days =
          cf + ch + 650 := by
      intro cf ch; rw [h1]; ring
    exact key _ _

/-- Witness for C10: the pipeline run on the zero-days request. -/
theorem nonpositive_days_pipeline_witness :
    (create_plan initialMetrics zeroDaysReq sampleRand "pid"
      "2026-01-01 00:00:00").2.summary.itinerary = [] ∧
    (create_plan initialMetrics zeroDaysReq sampleRand "pid"
      "2026-01-01 00:00:00").2.raw_budget.total =
      (create_plan initialMetrics zeroDaysReq sampleRand "pid"
        "2026-01-01 00:00:00").2.raw_budget.breakdown.flight +
      (create_plan initialMetrics zeroDaysReq sampleRand "pid"
        "2026-01-01 00:00:00").2.raw_budget.breakdown.hotel_per_night + 650 := by
  have h := nonpositive_days_pipeline initialMetrics zeroDaysReq sampleRand "pid"
    "2026-01-01 00:00:00" (by decide)
  exact ⟨h.1, h.2.2.2⟩

/-- C5: every `search_agent` result has exactly 2 flights, 2 hotels and
5 places, the i-th place (1-based) being the places query text with the
suffix `" - i"` appended. -/
theorem search_agent_shape (tasks : TaskSet) (r : SearchRandomness)
    (sr : SearchResult) (hsr : sr = search_agent tasks r) :
    sr.flights.length = 2 ∧ sr.hotels.length = 2 ∧ sr.places.length = 5 ∧
    sr.places = [tasks.places_query ++ " - 1", tasks.places_query ++ " - 2",
      tasks.places_query ++ " - 3", tasks.places_query ++ " - 4",
      tasks.places_query ++ " - 5"] := by
  subst hsr
  refine ⟨rfl, rfl, rfl, ?_⟩
  show (List.range 5).map (fun i => tasks.places_query ++ " - " ++ toString (i + 1)) = _
  have h1 : toString 1 = "1" := by decide
  have h2 : toString 2 = "2" := by decide
  have h3 : toString 3 = "3" := by decide
  have h4 : toString 4 = "4" := by decide
  have h5 : toString 5 = "5" := by decide
  simp only [List.range_succ, List.range_zero, List.map_append, List.map_cons, List.map_nil,
    List.nil_append, List.cons_append, List.append_nil, String.append_assoc]
  norm_num [h1, h2, h3, h4, h5]
  refine ⟨?_, ?_, ?_, ?_, ?_⟩ <;> congr 1

/-- Witness for C5: the theorem applied to the sample scenario. -/
theorem search_agent_shape_witness :
    (search_agent (planner_agent sampleReq) sampleRand).flights.length = 2 ∧
    (search_agent (planner_agent sampleReq) sampleRand).hotels.length = 2 ∧
    (search_agent (planner_agent sampleReq) sampleRand).places.length = 5 := by
  have h := search_agent_shape (planner_agent sampleReq) sampleRand _ rfl
  exact ⟨h.1, h.2.1, h.2.2.1⟩

/-- C6: one `create_plan` invocation takes the metrics registry from any
starting state to exactly plans_created + 1 and agent_calls + 4 (one
increment per stage), with no other metrics state to change, and the
response carries that final snapshot. -/
theorem create_plan_metrics (m : MetricsRegistry) (req : PlanRequest)
    (r : SearchRandomness) (pid ts : String) :
    (create_plan m req r pid ts).1 =
      { plans_created := m.plans_created + 1, agent_calls := m.agent_calls + 4 } ∧
    (create_plan m req r pid ts).2.metrics = (create_plan m req r pid ts).1 := by
  constructor
  · show bumpAgentCalls (bumpAgentCalls (bumpAgentCalls (bumpAgentCalls
      { m with plans_created := m.plans_created + 1 }))) = _
    simp [bumpAgentCalls]
  · rfl

/-- C8: `planner_agent` is deterministic and idempotent — identical
requests give the identical TaskSet, built from the three fixed query
templates. -/
theorem planner_agent_deterministic (r1 r2 : PlanRequest) (h : r1 = r2) :
    planner_agent r1 = planner_agent r2 ∧
    (planner_agent r1).flight_query =
      "cheap flights from " ++ r1.from_city ++ " to " ++ r1.to_city ∧
    (planner_agent r1).hotel_query = "budget hotels in " ++ r1.to_city ∧
    (planner_agent r1).places_query = "top attractions in " ++ r1.to_city := by
  subst h
  exact ⟨rfl, rfl, rfl, rfl⟩

/-- Witness for C8: the theorem applied to the sample request. -/
theorem planner_agent_deterministic_witness :
    planner_agent sampleReq = planner_agent sampleReq ∧
    (planner_agent sampleReq).flight_query =
      "cheap flights from " ++ sampleReq.from_city ++ " to " ++ sampleReq.to_city := by
  have h := planner_agent_deterministic sampleReq sampleReq rfl
  exact ⟨h.1, h.2.1⟩

/-- Random draws with a `random.random()` sample of 0.96 for the first
hotel, a value any uniform [0,1) source can produce. -/
def highRatingRand : SearchRandomness :=
  { flight1_price := 4000, flight2_price := 5000,
    hotel1_price := 1000, hotel1_u := 96/100,
    hotel2_price := 1500, hotel2_u := 0 }

/-- Counterexample for C9: with the sample 0.96 (which lies in [0,1)),
`round(3 + 0.96, 1) = round(3.96, 1) = 4.0`, so the first hotel rating
of the resulting search result is exactly 4 — outside the claimed
half-open interval `[3.0, 4.0)`. -/
theorem hotel_rating_not_below_4 :
    (0 : ℚ) ≤ 96/100 ∧ (96 : ℚ)/100 < 1 ∧
    (search_agent (planner_agent sampleReq) highRatingRand).hotels.map
      (fun h => h.rating) = [4, 3] ∧
    ¬ ((4 : ℚ) < 4) := by
  refine ⟨by norm_num, by norm_num, ?_, by norm_num⟩
  show [roundTo1 (3 + (96 : ℚ)/100), roundTo1 (3 + 0)] = [4, 3]
  have h1 : roundTo1 (3 + (96 : ℚ)/100) = 4 := by norm_num [roundTo1, round_eq]
  have h2 : roundTo1 (3 + (0 : ℚ)) = 3 := by norm_num [roundTo1, round_eq]
  rw [h1, h2]

/-- C9 amended: when each `random.random()` sample lies in [0,1), every
hotel rating of a `search_agent` result lies in the closed interval
[3.0, 4.0] — the upper endpoint 4.0 is attainable (for samples ≥ 0.95,
rounding to one decimal carries 3.9x up to 4.0), so the interval is not
half-open. -/
theorem hotel_rating_bounds (tasks : TaskSet) (r : SearchRandomness)
    (h1l : 0 ≤ r.hotel1_u) (h1u : r.hotel1_u < 1)
    (h2l : 0 ≤ r.hotel2_u) (h2u : r.hotel2_u < 1) :
    ∀ h ∈ (search_agent tasks r).hotels, 3 ≤ h.rating ∧ h.rating ≤ 4 := by
  have bounds : ∀ u : ℚ, 0 ≤ u → u < 1 →
      3 ≤ roundTo1 (3 + u) ∧ roundTo1 (3 + u) ≤ 4 := by
    intro u hl hu
    have hfl : (30 : ℤ) ≤ round (10 * (3 + u)) := by
      rw [round_eq]
      refine Int.le_floor.mpr ?_
      push_cast
      linarith
    have hfu : round (10 * (3 + u)) ≤ 40 := by
      have hlt : round (10 * (3 + u)) < 41 := by
        rw [round_eq]
        refine Int.floor_lt.mpr ?_
        push_cast
        linarith
      omega
    unfold roundTo1
    constructor
    · rw [le_div_iff₀ (by norm_num : (0:ℚ) < 10)]
      calc (3 : ℚ) * 10 = ((30 : ℤ) : ℚ) := by norm_num
      _ ≤ _ := by exact_mod_cast hfl
    · rw [div_le_iff₀ (by norm_num : (0:ℚ) < 10)]
      calc ((round (10 * (3 + u)) : ℤ) : ℚ) ≤ ((40 : ℤ) : ℚ) := by exact_mod_cast hfu
      _ = 4 * 10 := by norm_num
  intro h hmem
  rcases List.mem_cons.mp hmem with heq | hmem2
  · subst heq
    exact bounds r.hotel1_u h1l h1u
  · rcases List.mem_cons.mp hmem2 with heq | hnil
    · subst heq
      exact bounds r.hotel2_u h2l h2u
    · cases hnil

/-- Witness for C9 amended: the bound instantiated at the 0.96 draw,
where the first hotel rating is exactly the endpoint 4. -/
theorem hotel_rating_bounds_witness :
    3 ≤ roundTo1 (3 + (96 : ℚ)/100) ∧ roundTo1 (3 + (96 : ℚ)/100) ≤ 4 := by
  have h := hotel_rating_bounds (planner_agent sampleReq) highRatingRand
    (by norm_num [highRatingRand]) (by norm_num [highRatingRand])
    (by norm_num [highRatingRand]) (by norm_num [highRatingRand])
  exact h ⟨"Budget Inn", 1000, roundTo1 (3 + (96 : ℚ)/100)⟩ (List.mem_cons_self _ _)
